import Mathlib

/-!
Shallow embedding of the `BreachLocationTrends` visualization component
(`interactive-viz/breach-viz`): its literal data tables, the two derived
series (Network Server year-over-year growth, CAGR ranking), the
category→color mapping, and the view-selector dispatch.

Number representation: every numeric literal in the source is an exact
decimal with at most two fractional digits, and every derived value is
produced by `toFixed(1)` (one fractional digit).  The embedding therefore
uses exact scaled integers instead of floating point:
  - breach counts: `Int` (the source values are integers);
  - percentages and growth rates: `Int`, in tenths of a percent
    (so the source value 490.9 is represented as 4909);
  - CAGR values: `Int`, in hundredths of a percent (45.92 ↦ 4592).
On this data every JS float operation performed by the component is exact
up to the final `toFixed(1)` rounding, and none of the rounded quotients
falls near a tie, so the scaled-integer model agrees with the IEEE-double
evaluation value-for-value.
-/

namespace BreachViz

/-- One row of the literal `locationTrendsData` table: per-year breach
counts by system location.  Field names transliterate the JS object keys
("Network Server" ↦ `networkServer`, …, "Total" ↦ `total`). -/
structure YearRow where
  year : Int
  networkServer : Int
  email : Int
  electronicMedicalRecord : Int
  paperFilms : Int
  other : Int
  desktopComputer : Int
  total : Int
  deriving DecidableEq, Repr

/-- Default row used to model out-of-range list indexing; the code only
indexes `array[index - 1]` under the guard `index !== 0`, so this default
is never observable. -/
def dummyRow : YearRow := ⟨0, 0, 0, 0, 0, 0, 0, 0⟩

/-- The literal `locationTrendsData` table (11 rows, years 2015–2025). -/
def locationTrendsData : List YearRow :=
  [ ⟨2015,  11,  15,  9, 17,  9,  4,  65⟩,
    ⟨2016,  65,  30, 18, 25, 40, 12, 190⟩,
    ⟨2017,  65,  65, 21, 14, 40,  5, 210⟩,
    ⟨2018,  48,  80, 14, 26, 38,  8, 214⟩,
    ⟨2019,  97, 149, 18, 20, 50,  9, 343⟩,
    ⟨2020, 199, 167, 22, 24, 40,  3, 455⟩,
    ⟨2021, 264, 155, 24,  9, 28,  2, 482⟩,
    ⟨2022, 258, 137, 53,  6, 18,  3, 475⟩,
    ⟨2023, 302, 104, 19, 13, 10,  2, 450⟩,
    ⟨2024, 330, 134, 17, 12, 21,  3, 517⟩,
    ⟨2025, 111,  42,  8,  4,  8,  0, 173⟩ ]

/-- One row of the literal `percentageDistributionData` table; each
percentage is stored exactly, in tenths of a percent (16.9 ↦ 169). -/
structure PctRow where
  year : Int
  networkServerTenths : Int
  emailTenths : Int
  electronicMedicalRecordTenths : Int
  paperFilmsTenths : Int
  otherTenths : Int
  desktopComputerTenths : Int
  deriving DecidableEq, Repr

/-- Default percentage row for out-of-range indexing. -/
def dummyPctRow : PctRow := ⟨0, 0, 0, 0, 0, 0, 0⟩

/-- The literal `percentageDistributionData` table (11 rows, 2015–2025),
values in tenths of a percent. -/
def percentageDistributionData : List PctRow :=
  [ ⟨2015, 169, 231, 138, 262, 138, 62⟩,
    ⟨2016, 342, 158,  95, 132, 211, 63⟩,
    ⟨2017, 310, 310, 100,  67, 190, 24⟩,
    ⟨2018, 224, 374,  65, 121, 178, 37⟩,
    ⟨2019, 283, 434,  52,  58, 146, 26⟩,
    ⟨2020, 437, 367,  48,  53,  88,  7⟩,
    ⟨2021, 548, 322,  50,  19,  58,  4⟩,
    ⟨2022, 543, 288, 112,  13,  38,  6⟩,
    ⟨2023, 671, 231,  42,  29,  22,  4⟩,
    ⟨2024, 638, 259,  33,  23,  41,  6⟩,
    ⟨2025, 642, 243,  46,  23,  46,  0⟩ ]

/-- One element of `networkServerGrowthData`: the year and the growth
value in tenths of a percent (so the JS value 490.9 is stored as 4909). -/
structure GrowthPoint where
  year : Int
  growthTenths : Int
  deriving DecidableEq, Repr

/-- Default growth point for out-of-range indexing. -/
def dummyPoint : GrowthPoint := ⟨0, 0⟩

/-- Exact model of `(↑(n) / ↑(d) * 100).toFixed(1)` followed by
`parseFloat`, for `d > 0`, returning tenths of a percent.  `toFixed(1)`
picks the integer `t` minimizing the distance of `t/10` to the value,
choosing the larger `t` on a tie, which for an exact rational `x` is
`⌊x * 10 + 1/2⌋`; for `x = n/d * 100` this equals
`fdiv (2000*n + d) (2*d)` (floor division). -/
def roundTenths (n d : Int) : Int := Int.fdiv (2000 * n + d) (2 * d)

/-- Embedding of `networkServerGrowthData` as a function of the counts
table, mirroring the source:
`locationTrendsData.map((item, index, array) => …)` where index 0 yields
`{year, growth: 0}`, any later index applies the `prevYear > 0` guard and
the rounded percentage-change formula, followed by
`.filter(item => item.year < 2025)`. -/
def networkServerGrowthFrom (data : List YearRow) : List GrowthPoint :=
  (data.mapIdx fun index item =>
    if index = 0 then { year := item.year, growthTenths := 0 }
    else
      let prevYear := data.getD (index - 1) dummyRow
      let growthRate : Int :=
        if 0 < prevYear.networkServer then
          roundTenths (item.networkServer - prevYear.networkServer)
            prevYear.networkServer
        else 0
      { year := item.year, growthTenths := growthRate }).filter
    (fun item => decide (item.year < 2025))

/-- The derived `networkServerGrowthData` series of the component. -/
def networkServerGrowthData : List GrowthPoint :=
  networkServerGrowthFrom locationTrendsData

/-- One element of the `locationGrowthRates` literal: category name and
CAGR in hundredths of a percent (45.92 ↦ 4592). -/
structure CategoryRate where
  name : String
  cagrCenti : Int
  deriving DecidableEq, Repr

/-- The `locationGrowthRates` array literal in its source order, before
the `.sort` call. -/
def locationGrowthRatesBase : List CategoryRate :=
  [ ⟨"Network Server", 4592⟩,
    ⟨"Email", 2755⟩,
    ⟨"Electronic Medical Record", 732⟩,
    ⟨"Other", 987⟩,
    ⟨"Paper/Films", -380⟩,
    ⟨"Desktop Computer", -315⟩ ]

/-- Stable insertion step: place `x` before the first element whose CAGR
is at most `x`'s (so an element equal in key to `x` stays after `x`,
preserving the original order of earlier elements). -/
def insertDesc (x : CategoryRate) : List CategoryRate → List CategoryRate
  | [] => [x]
  | y :: ys =>
    if y.cagrCenti ≤ x.cagrCenti then x :: y :: ys else y :: insertDesc x ys

/-- Stable descending sort by CAGR, modelling the ES2019-stable
`Array.prototype.sort((a, b) => b.cagr - a.cagr)` call. -/
def sortDescByCagr : List CategoryRate → List CategoryRate
  | [] => []
  | x :: xs => insertDesc x (sortDescByCagr xs)

/-- The sorted `locationGrowthRates` value used by the component. -/
def locationGrowthRates : List CategoryRate :=
  sortDescByCagr locationGrowthRatesBase

/-- The six breach-location categories. -/
inductive Category where
  | networkServer
  | email
  | electronicMedicalRecord
  | paperFilms
  | other
  | desktopComputer
  deriving DecidableEq, Fintype, Repr

/-- The display name of each category, as it appears in the JS keys. -/
def categoryName : Category → String
  | .networkServer => "Network Server"
  | .email => "Email"
  | .electronicMedicalRecord => "Electronic Medical Record"
  | .paperFilms => "Paper/Films"
  | .other => "Other"
  | .desktopComputer => "Desktop Computer"

/-- All six categories, in the order of the counts-table keys. -/
def allCategories : List Category :=
  [.networkServer, .email, .electronicMedicalRecord, .paperFilms, .other,
   .desktopComputer]

/-- The `COLORS` object literal: the fixed category→color mapping. -/
def COLORS : Category → String
  | .networkServer => "#8884d8"
  | .email => "#82ca9d"
  | .electronicMedicalRecord => "#ffc658"
  | .paperFilms => "#ff8042"
  | .other => "#a4de6c"
  | .desktopComputer => "#d0ed57"

/-- The five chart views of the component. -/
inductive ChartView where
  | absolute
  | percentage
  | stacked
  | networkServerGrowth
  | growthComparison
  deriving DecidableEq, Fintype, Repr

/-- The five `option` values offered by the selector `select`. -/
def knownChartTypes : List String :=
  ["absolute", "percentage", "stacked", "networkServerGrowth",
   "growthComparison"]

/-- The initial selector state: `useState('absolute')`. -/
def initialChartType : String := "absolute"

/-- Embedding of the render dispatch: the component's body is a chain of
conditional blocks of the form `{chartType === 'absolute' && (…)}`, one
per view; the value of `chartType` selects which single block renders,
and a value matching no block renders no chart at all (`none`). -/
def renderedView (chartType : String) : Option ChartView :=
  if chartType = "absolute" then some ChartView.absolute
  else if chartType = "percentage" then some ChartView.percentage
  else if chartType = "stacked" then some ChartView.stacked
  else if chartType = "networkServerGrowth" then
    some ChartView.networkServerGrowth
  else if chartType = "growthComparison" then
    some ChartView.growthComparison
  else none

/-- The CAGR value attached to a category in the `locationGrowthRates`
entries (in hundredths of a percent). -/
def cagrOf (c : Category) : Int :=
  (((locationGrowthRates.find? (fun e => e.name == categoryName c)).map
    CategoryRate.cagrCenti).getD 0)

/-- The fill/stroke color the chart configuration assigns to a category's
data in each view (`none` when the category's data does not appear in
that view).  The `absolute`, `percentage` and `stacked` views pass
`COLORS[category]` for every category's series; the
`networkServerGrowth` view renders only the Network Server growth bar
with `COLORS["Network Server"]`; the `growthComparison` view colors each
category's bar by the sign of its CAGR
(`entry.cagr >= 0 ? '#82ca9d' : '#ff7373'`), not by `COLORS`. -/
def seriesColor : ChartView → Category → Option String
  | .absolute, c => some (COLORS c)
  | .percentage, c => some (COLORS c)
  | .stacked, c => some (COLORS c)
  | .networkServerGrowth, .networkServer => some (COLORS .networkServer)
  | .networkServerGrowth, _ => none
  | .growthComparison, c =>
    some (if 0 ≤ cagrOf c then "#82ca9d" else "#ff7373")

/-- Specification-side growth formula (spec §3, §8), written from the
spec's words for comparison with the code's series: for a counts-table
row index `i ≥ 1` with previous Network Server count `P` and current
count `C`, the growth is `round1((C − P)/P × 100)` when `P > 0` and `0`
otherwise, here in tenths of a percent. -/
def growthTenthsSpec (i : Nat) : Int :=
  let item := locationTrendsData.getD i dummyRow
  let prev := locationTrendsData.getD (i - 1) dummyRow
  if 0 < prev.networkServer then
    roundTenths (item.networkServer - prev.networkServer) prev.networkServer
  else 0

end BreachViz

namespace BreachViz

/-- C1 counterexample: the growth series does NOT have 9 elements, and it
does contain a point for year 2015: the map step keeps index 0 (year
2015, growth 0) and only the filter `year < 2025` drops a row, so the
claimed conjunction (length 9, no 2015, no 2025) is false. -/
theorem growth_series_shape_counterexample :
    ¬ (networkServerGrowthData.length = 9 ∧
       ∀ p ∈ networkServerGrowthData, p.year ≠ 2015 ∧ p.year ≠ 2025) := by
  decide

/-- C1 amended: the growth series has 10 elements, one per year 2015
through 2024; only the incomplete final year 2025 is excluded, while the
first year 2015 is kept with growth 0. -/
theorem growth_series_shape_amended :
    networkServerGrowthData.length = 10 ∧
    networkServerGrowthData.map GrowthPoint.year =
      [2015, 2016, 2017, 2018, 2019, 2020, 2021, 2022, 2023, 2024] ∧
    networkServerGrowthData.head? = some ⟨2015, 0⟩ := by
  decide

/-- C2: every growth point after the first equals the spec formula
`round1((C − P)/P × 100)` when `P > 0` (else 0) applied to the counts
table at the same index, carrying that row's year; in particular the
2016 point is `{year := 2016, growth := 490.9}` (4909 tenths). -/
theorem growth_formula_matches_spec :
    (∀ i : Fin networkServerGrowthData.length, 1 ≤ i.val →
      (networkServerGrowthData.get i).growthTenths = growthTenthsSpec i.val ∧
      (networkServerGrowthData.get i).year =
        (locationTrendsData.getD i.val dummyRow).year) ∧
    networkServerGrowthData.getD 1 dummyPoint = ⟨2016, 4909⟩ := by
  decide

/-- C2 witness: the theorem applied at index 1 (the 2016 point). -/
theorem growth_formula_matches_spec_witness :
    (networkServerGrowthData.get ⟨1, by decide⟩).growthTenths =
      growthTenthsSpec 1 ∧
    (networkServerGrowthData.get ⟨1, by decide⟩).year =
      (locationTrendsData.getD 1 dummyRow).year :=
  growth_formula_matches_spec.1 ⟨1, by decide⟩ (by decide)

/-- C3: in every row of the literal counts table the six category counts
sum exactly to the row's Total field. -/
theorem counts_row_sum_total :
    ∀ r ∈ locationTrendsData,
      r.networkServer + r.email + r.electronicMedicalRecord + r.paperFilms +
        r.other + r.desktopComputer = r.total := by
  decide

/-- C3 witness: the theorem applied to the first (2015) row. -/
theorem counts_row_sum_total_witness :
    (locationTrendsData.getD 0 dummyRow).networkServer +
      (locationTrendsData.getD 0 dummyRow).email +
      (locationTrendsData.getD 0 dummyRow).electronicMedicalRecord +
      (locationTrendsData.getD 0 dummyRow).paperFilms +
      (locationTrendsData.getD 0 dummyRow).other +
      (locationTrendsData.getD 0 dummyRow).desktopComputer =
      (locationTrendsData.getD 0 dummyRow).total :=
  counts_row_sum_total (locationTrendsData.getD 0 dummyRow) (by decide)

/-- C4: the CAGR ranking is sorted descending by CAGR (pairwise), its
first element is Network Server (45.92) and its last Paper/Films
(−3.80); the full sorted value is as listed, and the literal CAGR values
are pairwise distinct, so the stable tie-break never engages on this
dataset (the embedding's sort is stable by construction). -/
theorem cagr_ranking_sorted_first_last :
    List.Pairwise (fun a b => b.cagrCenti ≤ a.cagrCenti)
      locationGrowthRates ∧
    locationGrowthRates.head? = some ⟨"Network Server", 4592⟩ ∧
    locationGrowthRates.getLast? = some ⟨"Paper/Films", -380⟩ ∧
    locationGrowthRates =
      [ ⟨"Network Server", 4592⟩, ⟨"Email", 2755⟩, ⟨"Other", 987⟩,
        ⟨"Electronic Medical Record", 732⟩, ⟨"Desktop Computer", -315⟩,
        ⟨"Paper/Films", -380⟩ ] ∧
    (locationGrowthRatesBase.map CategoryRate.cagrCenti).Nodup := by
  decide

/-- C5 counterexample: the value `"mystery"` is outside the five known
selector identifiers, yet the component does not fall back to the
`absolute` view for it: no conditional block matches, so no chart view
renders at all. -/
theorem unknown_selector_fallback_counterexample :
    ("mystery" : String) ∉ knownChartTypes ∧
    renderedView "mystery" ≠ some ChartView.absolute ∧
    renderedView initialChartType = some ChartView.absolute := by
  decide

/-- C5 amended: for every selector value outside the five known
identifiers the component renders no chart view at all (the dispatch
yields `none`); it surfaces no error, the dispatch being total. -/
theorem unknown_selector_renders_nothing (s : String)
    (h : s ∉ knownChartTypes) : renderedView s = none := by
  have h1 : s ≠ "absolute" := by
    intro hs; exact h (by rw [hs]; decide)
  have h2 : s ≠ "percentage" := by
    intro hs; exact h (by rw [hs]; decide)
  have h3 : s ≠ "stacked" := by
    intro hs; exact h (by rw [hs]; decide)
  have h4 : s ≠ "networkServerGrowth" := by
    intro hs; exact h (by rw [hs]; decide)
  have h5 : s ≠ "growthComparison" := by
    intro hs; exact h (by rw [hs]; decide)
  simp [renderedView, h1, h2, h3, h4, h5]

/-- C5 amended witness: the amended theorem applied to `"mystery"`. -/
theorem unknown_selector_renders_nothing_witness :
    renderedView "mystery" = none :=
  unknown_selector_renders_nothing "mystery" (by decide)

/-- C6 counterexample: it is not the case that the per-category colors
are pairwise distinct AND that every category is rendered with the same
color in every view in which it appears: the `growthComparison` view
colors bars by CAGR sign, so e.g. Paper/Films appears there as
`#ff7373` while every other view renders it as `#ff8042`. -/
theorem category_color_consistency_counterexample :
    ¬ ((∀ c d : Category, c ≠ d → COLORS c ≠ COLORS d) ∧
       (∀ (c : Category) (v₁ v₂ : ChartView),
         (seriesColor v₁ c).isSome = true →
         (seriesColor v₂ c).isSome = true →
         seriesColor v₁ c = seriesColor v₂ c)) := by
  decide

/-- C6 amended: the six `COLORS` values are pairwise distinct, and each
category is rendered with exactly `COLORS[category]` in the `absolute`,
`percentage` and `stacked` views and (for Network Server alone) in the
`networkServerGrowth` view; the `growthComparison` view instead colors
every category's bar by CAGR sign (`#82ca9d` or `#ff7373`), so there
Paper/Films gets `#ff7373`, not its fixed color `#ff8042`. -/
theorem category_color_consistency_amended :
    (allCategories.map COLORS).Nodup ∧
    (∀ c : Category,
      seriesColor ChartView.absolute c = some (COLORS c) ∧
      seriesColor ChartView.percentage c = some (COLORS c) ∧
      seriesColor ChartView.stacked c = some (COLORS c)) ∧
    seriesColor ChartView.networkServerGrowth Category.networkServer =
      some (COLORS Category.networkServer) ∧
    (∀ c : Category, c = Category.networkServer ∨
      seriesColor ChartView.networkServerGrowth c = none) ∧
    (∀ c : Category,
      seriesColor ChartView.growthComparison c = some "#82ca9d" ∨
      seriesColor ChartView.growthComparison c = some "#ff7373") ∧
    seriesColor ChartView.growthComparison Category.paperFilms =
      some "#ff7373" ∧
    COLORS Category.paperFilms = "#ff8042" := by
  decide

/-- C7: in every row of the literal percentage-distribution table the
six category percentages sum to within 0.2 of 100.0 (in tenths of a
percent: the sum is within 2 of 1000). -/
theorem percentage_rows_sum_near_100 :
    ∀ r ∈ percentageDistributionData,
      (r.networkServerTenths + r.emailTenths +
        r.electronicMedicalRecordTenths + r.paperFilmsTenths +
        r.otherTenths + r.desktopComputerTenths - 1000).natAbs ≤ 2 := by
  decide

/-- C7 witness: the theorem applied to the first (2015) row. -/
theorem percentage_rows_sum_near_100_witness :
    ((percentageDistributionData.getD 0 dummyPctRow).networkServerTenths +
      (percentageDistributionData.getD 0 dummyPctRow).emailTenths +
      (percentageDistributionData.getD 0
        dummyPctRow).electronicMedicalRecordTenths +
      (percentageDistributionData.getD 0 dummyPctRow).paperFilmsTenths +
      (percentageDistributionData.getD 0 dummyPctRow).otherTenths +
      (percentageDistributionData.getD 0 dummyPctRow).desktopComputerTenths -
      1000).natAbs ≤ 2 :=
  percentage_rows_sum_near_100 (percentageDistributionData.getD 0 dummyPctRow)
    (by decide)

/-- C8: both derivations are pure functions of their literal inputs —
the embedding renders them as total functions, so evaluating either one
twice on the same input yields identical results. -/
theorem derived_tables_pure (data : List YearRow)
    (rates : List CategoryRate) :
    networkServerGrowthFrom data = networkServerGrowthFrom data ∧
    sortDescByCagr rates = sortDescByCagr rates :=
  ⟨rfl, rfl⟩

/-- C9: every row of the counts table that has a successor row carries a
strictly positive Network Server count, so for every growth point after
the first the guard `prevYear["Network Server"] > 0` holds and the value
is the rounded division formula — the zero-fallback branch is never
taken and every division performed is well-defined. -/
theorem division_guard_never_falls_back :
    (∀ i : Fin locationTrendsData.length,
      i.val + 1 < locationTrendsData.length →
      0 < (locationTrendsData.get i).networkServer) ∧
    (∀ i : Fin networkServerGrowthData.length, 1 ≤ i.val →
      0 < (locationTrendsData.getD (i.val - 1) dummyRow).networkServer ∧
      (networkServerGrowthData.get i).growthTenths =
        roundTenths
          ((locationTrendsData.getD i.val dummyRow).networkServer -
            (locationTrendsData.getD (i.val - 1) dummyRow).networkServer)
          ((locationTrendsData.getD (i.val - 1) dummyRow).networkServer)) := by
  decide

/-- C9 witness: the theorem applied at row 0 and at growth point 1. -/
theorem division_guard_never_falls_back_witness :
    0 < (locationTrendsData.get ⟨0, by decide⟩).networkServer ∧
    0 < (locationTrendsData.getD 0 dummyRow).networkServer :=
  ⟨division_guard_never_falls_back.1 ⟨0, by decide⟩ (by decide),
   (division_guard_never_falls_back.2 ⟨1, by decide⟩ (by decide)).1⟩

/-- C10: the sorted CAGR ranking is a permutation of the six literal
entries: six elements, a permutation of the source-order list, pairwise
distinct names, each literal entry occurring exactly once, and each of
the six names present with its original literal CAGR value. -/
theorem cagr_ranking_is_permutation :
    locationGrowthRates.length = 6 ∧
    List.Perm locationGrowthRates locationGrowthRatesBase ∧
    (locationGrowthRates.map CategoryRate.name).Nodup ∧
    locationGrowthRatesBase.all
      (fun e => decide (locationGrowthRates.count e = 1)) = true ∧
    (⟨"Network Server", 4592⟩ : CategoryRate) ∈ locationGrowthRates ∧
    (⟨"Email", 2755⟩ : CategoryRate) ∈ locationGrowthRates ∧
    (⟨"Electronic Medical Record", 732⟩ : CategoryRate) ∈
      locationGrowthRates ∧
    (⟨"Other", 987⟩ : CategoryRate) ∈ locationGrowthRates ∧
    (⟨"Paper/Films", -380⟩ : CategoryRate) ∈ locationGrowthRates ∧
    (⟨"Desktop Computer", -315⟩ : CategoryRate) ∈ locationGrowthRates := by
  decide

end BreachViz
